import Mathlib

/-!
Verification of the sse-mcp repository: a shallow embedding of the
conversation loop in `client.py` (`MCPClient.process_query` and
`MCPClient._invoke_bedrock_claude`) and of the location tool server in
`location_manager.py` (`make_location_request` and its callers).

External collaborators (the MCP session, the Bedrock network, the HTTP
location API) are modelled as oracles packaged in an environment record;
the control flow, string formatting and state threading are translated
directly from the Python source.
-/

namespace Client

/-- JSON values, as passed around for tool arguments and schemas. -/
inductive Json where
  | str : String → Json
  | num : Int → Json
  | bool : Bool → Json
  | null : Json
  | arr : List Json → Json
  | obj : List (String × Json) → Json

/-- One hexadecimal digit, lowercase, as Python's json encoder prints it. -/
def hexDigit (n : Nat) : Char :=
  if n < 10 then Char.ofNat (48 + n) else Char.ofNat (87 + n)

/-- Escaping of a single character inside a JSON string literal, following
Python `json.dumps` with `ensure_ascii=False`: only `"`), `\` and control
characters are escaped; everything else is emitted as-is. -/
def escapeChar (c : Char) : String :=
  if c = '"' then "\\\""
  else if c = '\\' then "\\\\"
  else if c = '\n' then "\\n"
  else if c = '\r' then "\\r"
  else if c = '\t' then "\\t"
  else if c = Char.ofNat 8 then "\\b"
  else if c = Char.ofNat 12 then "\\f"
  else if c.toNat < 32 then
    "\\u00" ++ String.singleton (hexDigit (c.toNat / 16)) ++
      String.singleton (hexDigit (c.toNat % 16))
  else String.singleton c

/-- A JSON string literal with surrounding quotes. -/
def dumpsStr (s : String) : String :=
  "\"" ++ String.join (s.toList.map escapeChar) ++ "\""

mutual

/-- `json.dumps(v, ensure_ascii=False)` with the default separators
`", "` and `": "`. -/
def dumps : Json → String
  | Json.str s => dumpsStr s
  | Json.num n => toString n
  | Json.bool b => if b then "true" else "false"
  | Json.null => "null"
  | Json.arr xs => "[" ++ dumpsArr xs ++ "]"
  | Json.obj xs => "\x7b" ++ dumpsObj xs ++ "\x7d"

def dumpsArr : List Json → String
  | [] => ""
  | [x] => dumps x
  | x :: y :: xs => dumps x ++ ", " ++ dumpsArr (y :: xs)

def dumpsObj : List (String × Json) → String
  | [] => ""
  | [(k, v)] => dumpsStr k ++ ": " ++ dumps v
  | (k, v) :: y :: xs => dumpsStr k ++ ": " ++ dumps v ++ ", " ++ dumpsObj (y :: xs)

end

/-- A tool descriptor as returned by `session.list_tools()`. -/
structure MCPTool where
  name : String
  description : String
  inputSchema : Json

/-- A tool descriptor reshaped for the Bedrock request
(`{"name": ..., "description": ..., "input_schema": ...}`). -/
structure AvailableTool where
  name : String
  description : String
  input_schema : Json

/-- The `available_tools` list built in `process_query`. -/
def toAvailableTool (t : MCPTool) : AvailableTool :=
  { name := t.name, description := t.description, input_schema := t.inputSchema }

/-- A content block of a Bedrock model reply.  `text` carries
`content.get("text", "")`; `toolUse` carries `content.get("id")` (absent
modelled as `none`), `content.get("name")` and `content.get("input", {})`;
`other` stands for a block whose `type` is neither `text` nor `tool_use`,
which the loop skips. -/
inductive ContentBlock where
  | text : String → ContentBlock
  | toolUse (id : Option String) (name : String) (input : List (String × Json)) :
      ContentBlock
  | other : ContentBlock

/-- A structured block inside a message appended by `process_query`. -/
inductive MsgBlock where
  | toolUse (name : String) (input : List (String × Json)) (id : String) : MsgBlock
  | toolResult (content : String) (tool_use_id : String) : MsgBlock

/-- The content of a transcript message: either a plain string (the initial
user query) or a list of structured blocks. -/
inductive MsgContent where
  | text : String → MsgContent
  | blocks : List MsgBlock → MsgContent

/-- One transcript message (`{"role": ..., "content": ...}`). -/
structure Message where
  role : String
  content : MsgContent

/-- Observable remote interactions of one `process_query` run, in order:
the `session.list_tools()` call, an entry into `_invoke_bedrock_claude`,
the actual `invoke_model` network request to Bedrock, and a
`session.call_tool` invocation. -/
inductive Event where
  | listToolsCall : Event
  | modelInvoke : Event
  | bedrockNetwork : Event
  | toolCall (name : String) : Event
deriving Repr, DecidableEq

/-- Outcome of one `invoke_model` network request: a parsed response body
(its `content` list), or a botocore `ClientError` with an error code and
message. -/
inductive BedrockOutcome where
  | ok (content : List ContentBlock) : BedrockOutcome
  | clientError (code : String) (message : String) : BedrockOutcome

/-- The environment: every external effect `process_query` can observe.
`bedrock` maps the index of a network request (0-based, per query) to its
outcome; `callTool` maps the index of a tool call plus the tool name and
arguments to either a `str(result.content)` string or the message of a
raised exception; `traceback` is the text `traceback.format_exc()` yields
at the `except` boundary. -/
structure Env where
  hasSession : Bool
  listToolsResult : Except String (List MCPTool)
  bedrock : Nat → BedrockOutcome
  callTool : Nat → String → List (String × Json) → Except String String
  traceback : String

/-- The `ClientError` codes that latch `bedrock_available := False`
(client.py lines 129-131). -/
def authErrorCodes : List String :=
  ["UnrecognizedClientException", "InvalidSignatureException",
   "ExpiredTokenException", "AccessDeniedException"]

/-- Mutable client state threaded through one query: the
`bedrock_available` flag, how many Bedrock network requests and tool calls
have been issued, and the event log. -/
structure ClientState where
  bedrock_available : Bool
  nBedrock : Nat
  nTool : Nat
  events : List Event
deriving Repr, DecidableEq

/-- `MCPClient._invoke_bedrock_claude` (client.py lines 102-135): raise at
once if `bedrock_available` is false; otherwise perform the network
request; on a `ClientError` with an authentication code, latch the flag
before re-raising. -/
def _invoke_bedrock_claude (env : Env) (st : ClientState) :
    Except String (List ContentBlock) × ClientState :=
  let st1 := { st with events := st.events ++ [Event.modelInvoke] }
  if st1.bedrock_available = false then
    (Except.error "AWS Bedrock authentication failed. Please check your credentials.",
     st1)
  else
    let outcome := env.bedrock st1.nBedrock
    let st2 := { st1 with
                 events := st1.events ++ [Event.bedrockNetwork],
                 nBedrock := st1.nBedrock + 1 }
    match outcome with
    | BedrockOutcome.ok content => (Except.ok content, st2)
    | BedrockOutcome.clientError code message =>
        let st3 :=
          if code ∈ authErrorCodes then { st2 with bedrock_available := false }
          else st2
        (Except.error ("AWS Bedrock error (" ++ code ++ "): " ++ message), st3)

/-- Loop state of one `process_query` run: the client state plus the
`messages`, `tool_results` and `final_text` lists. -/
structure LoopState where
  client : ClientState
  messages : List Message
  tool_results : List String
  final_text : List String

/-- `content.get("id", f"tool_{len(tool_results)}")` (client.py line 190). -/
def fallbackToolId (id : Option String) (tool_results : List String) : String :=
  match id with
  | some i => i
  | none => "tool_" ++ toString tool_results.length

/-- The inner scan of a follow-up Bedrock reply (client.py lines 233-235):
only text blocks are collected; tool_use blocks there are ignored. -/
def followUpTexts (content : List ContentBlock) : List String :=
  content.filterMap fun c =>
    match c with
    | ContentBlock.text t => some t
    | _ => none

/-- The `for content in bedrock_response.get("content", [])` loop of
`process_query` (client.py lines 183-235).  The iterator ranges over the
first reply's content list; reassigning `bedrock_response` inside the body
does not extend it.  Returns the final state and `some e` when an
exception with message `e` escaped to the `except` boundary. -/
def processBlocks (env : Env) :
    List ContentBlock → LoopState → LoopState × Option String
  | [], st => (st, none)
  | ContentBlock.text t :: rest, st =>
      processBlocks env rest { st with final_text := st.final_text ++ [t] }
  | ContentBlock.other :: rest, st =>
      processBlocks env rest st
  | ContentBlock.toolUse id tool_name tool_args :: rest, st =>
      let tool_id := fallbackToolId id st.tool_results
      let client1 := { st.client with
                       events := st.client.events ++ [Event.toolCall tool_name],
                       nTool := st.client.nTool + 1 }
      match env.callTool st.client.nTool tool_name tool_args with
      | Except.error e => ({ st with client := client1 }, some e)
      | Except.ok result_content =>
          let safe_args := dumps (Json.obj tool_args)
          let st1 : LoopState :=
            { st with
              client := client1,
              final_text := st.final_text ++
                ["[Calling tool " ++ tool_name ++ " with args " ++ safe_args ++ "]"],
              messages := st.messages ++
                [{ role := "assistant",
                   content := MsgContent.blocks
                     [MsgBlock.toolUse tool_name tool_args tool_id] },
                 { role := "user",
                   content := MsgContent.blocks
                     [MsgBlock.toolResult result_content tool_id] }] }
          match _invoke_bedrock_claude env st1.client with
          | (Except.error e, c2) => ({ st1 with client := c2 }, some e)
          | (Except.ok content2, c2) =>
              processBlocks env rest
                { st1 with
                  client := c2,
                  final_text := st1.final_text ++ followUpTexts content2 }

/-- What `process_query` lets its caller observe: the returned string, the
event log and the final transcript. -/
structure QueryResult where
  output : String
  events : List Event
  messages : List Message

/-- The string built at the `except` boundary (client.py lines 238-241):
`f"Error processing query: {str(e)}\n\n{trace}"`. -/
def errorOutput (e trace : String) : String :=
  "Error processing query: " ++ e ++ "\n\n" ++ trace

/-- `MCPClient.process_query` (client.py lines 151-241).  `available` is the
value of `self.bedrock_available` when the query starts. -/
def process_query (env : Env) (available : Bool) (query : String) : QueryResult :=
  if env.hasSession = false then
    { output := "Not connected to server. Please connect first.",
      events := [], messages := [] }
  else
    let messages : List Message := [{ role := "user", content := MsgContent.text query }]
    let c0 : ClientState :=
      { bedrock_available := available, nBedrock := 0, nTool := 0,
        events := [Event.listToolsCall] }
    match env.listToolsResult with
    | Except.error e =>
        { output := errorOutput e env.traceback, events := c0.events,
          messages := messages }
    | Except.ok _tools =>
        match _invoke_bedrock_claude env c0 with
        | (Except.error e, c1) =>
            { output := errorOutput e env.traceback, events := c1.events,
              messages := messages }
        | (Except.ok content, c1) =>
            let st0 : LoopState :=
              { client := c1, messages := messages, tool_results := [],
                final_text := [] }
            match processBlocks env content st0 with
            | (st, none) =>
                { output := String.intercalate "\n" st.final_text,
                  events := st.client.events, messages := st.messages }
            | (st, some e) =>
                { output := errorOutput e env.traceback,
                  events := st.client.events, messages := st.messages }

/-- Number of entries into `_invoke_bedrock_claude` (Model Invoker calls). -/
def countModelCalls (evs : List Event) : Nat :=
  (evs.filter fun e =>
    match e with
    | Event.modelInvoke => true
    | _ => false).length

/-- Number of `session.call_tool` invocations. -/
def countToolCalls (evs : List Event) : Nat :=
  (evs.filter fun e =>
    match e with
    | Event.toolCall _ => true
    | _ => false).length

/-- Number of actual `invoke_model` network requests to Bedrock. -/
def countBedrockNetwork (evs : List Event) : Nat :=
  (evs.filter fun e =>
    match e with
    | Event.bedrockNetwork => true
    | _ => false).length

end Client

namespace LocationManager

open Client (Json)

/-- `LOCATION_API_BASE` (location_manager.py line 20). -/
def LOCATION_API_BASE : String :=
  "https://int.dev.api.coxautoinc.com/wholesale-marketplace/enablement/locations"

/-- Outcome of the `client.get` call inside `make_location_request`:
either the request itself raised (connection failure, timeout), or a
response arrived with a status code and a body; `jsonBody = none` means
`response.json()` raises a decode error. -/
inductive HttpResult where
  | requestError (message : String) : HttpResult
  | response (status : Nat) (jsonBody : Option Json) : HttpResult

/-- The HTTP world the location tools run against. -/
structure HttpEnv where
  get : String → HttpResult

/-- `make_location_request` (location_manager.py lines 24-37): perform the
GET; `raise_for_status()` raises unless the status is a 2xx success;
`response.json()` raises on a decode failure; every exception is caught
and turned into `None`. -/
def make_location_request (env : HttpEnv) (url : String) : Option Json :=
  match env.get url with
  | HttpResult.requestError _ => none
  | HttpResult.response status jsonBody =>
      if 200 ≤ status ∧ status < 300 then
        match jsonBody with
        | some j => some j
        | none => none
      else none

/-- Python truthiness of a parsed JSON value (`if not data`). -/
def jsonTruthy : Json → Bool
  | Json.null => false
  | Json.bool b => b
  | Json.num n => decide (n ≠ 0)
  | Json.str s => decide (s ≠ "")
  | Json.arr xs => !xs.isEmpty
  | Json.obj xs => !xs.isEmpty

/-- Key lookup in a JSON object (`data.get(key)` / `key in data`). -/
def lookupKey : List (String × Json) → String → Option Json
  | [], _ => none
  | (k, v) :: rest, key => if k = key then some v else lookupKey rest key

/-- The fields of a JSON object; the source annotates these values as
`Dict[str, Any]` and accesses them with `.get`, so non-object values do
not occur on the modelled paths. -/
def objFields : Json → List (String × Json)
  | Json.obj xs => xs
  | _ => []

/-- The elements of the `data["items"]` list iterated by the search tools. -/
def jsonItems : Json → List Json
  | Json.arr xs => xs
  | _ => []

mutual

/-- Python `repr` of a parsed JSON value, as used when such a value is
embedded in a container printed by `str`. -/
def pyRepr : Json → String
  | Json.str s => "'" ++ s ++ "'"
  | Json.num n => toString n
  | Json.bool b => if b then "True" else "False"
  | Json.null => "None"
  | Json.arr xs => "[" ++ pyReprArr xs ++ "]"
  | Json.obj xs => "\x7b" ++ pyReprObj xs ++ "\x7d"

def pyReprArr : List Json → String
  | [] => ""
  | [x] => pyRepr x
  | x :: y :: xs => pyRepr x ++ ", " ++ pyReprArr (y :: xs)

def pyReprObj : List (String × Json) → String
  | [] => ""
  | [(k, v)] => "'" ++ k ++ "': " ++ pyRepr v
  | (k, v) :: y :: xs => "'" ++ k ++ "': " ++ pyRepr v ++ ", " ++ pyReprObj (y :: xs)

end

/-- Python `str` of a parsed JSON value, as an f-string formats it. -/
def pyStr : Json → String
  | Json.str s => s
  | v => pyRepr v

/-- `d.get(key, default)` followed by f-string formatting, where the
default is a plain string. -/
def getFmt (d : List (String × Json)) (key dflt : String) : String :=
  match lookupKey d key with
  | some v => pyStr v
  | none => dflt

/-- `format_location` (location_manager.py lines 40-66): the f-string,
transcribed verbatim, over `location_data` and its `address` and
`contact` sub-objects. -/
def format_location (location_data : List (String × Json)) : String :=
  let address := objFields ((lookupKey location_data "address").getD (Json.obj []))
  let contact := objFields ((lookupKey location_data "contact").getD (Json.obj []))
  let phone :=
    match lookupKey contact "phone" with
    | some v => pyStr v
    | none => getFmt location_data "contactPhone" "Unknown"
  "\nLocation Name: " ++ getFmt location_data "locationName" "Unknown" ++
  "\nLocation Code: " ++ getFmt location_data "locationCode" "Unknown" ++
  "\nType: " ++ getFmt location_data "locationType" "Unknown" ++
  "\nSubType: " ++ getFmt location_data "locationSubType" "Unknown" ++
  "\nOperated By: " ++ getFmt location_data "operatedBy" "Unknown" ++
  "\n\nAddress: " ++ getFmt address "address1" "Unknown" ++ ",\n         " ++
  getFmt address "city" "Unknown" ++ ",\n         " ++
  getFmt address "stateProvinceRegion" "Unknown" ++ " " ++
  getFmt address "postalCode" "Unknown" ++
  "\nCountry: " ++ getFmt address "country" "Unknown" ++
  "\nCoordinates: " ++ getFmt address "latitude" "Unknown" ++ ", " ++
  getFmt address "longitude" "Unknown" ++
  "\n\nContact: \n  Phone: " ++ phone ++
  "\n  Fax: " ++ getFmt contact "fax" "Not provided" ++
  "\n  Email: " ++ getFmt contact "email" "Not provided" ++
  "\n\nTime Zone: " ++ getFmt location_data "timeZone" "Unknown" ++
  "\nLocation Active: " ++ getFmt location_data "locationActive" "Unknown" ++
  "\nRegion: " ++ getFmt location_data "region" "Unknown" ++ "\n"

/-- `get_location_by_id` (location_manager.py lines 69-83).  The success
branch of the source is the line `retrurn data`, a misspelling of
`return`, which cannot execute; it is modelled as a raised error, so only
the failure branch yields a value. -/
def get_location_by_id (env : HttpEnv) (location_id : String) :
    Except String String :=
  let url := LOCATION_API_BASE ++ "/id/" ++ location_id
  match make_location_request env url with
  | none => Except.ok "Unable to fetch location data for this ID."
  | some data =>
      if jsonTruthy data = false then
        Except.ok "Unable to fetch location data for this ID."
      else Except.error "invalid statement at line 83: retrurn data"

/-- `search_locations_by_name` (location_manager.py lines 86-103). -/
def search_locations_by_name (env : HttpEnv) (name : String) : String :=
  let url := LOCATION_API_BASE ++ "/search?name=" ++ name
  match make_location_request env url with
  | none => "Unable to fetch locations or no locations found."
  | some data =>
      if jsonTruthy data = false then
        "Unable to fetch locations or no locations found."
      else
        match lookupKey (objFields data) "items" with
        | none => "Unable to fetch locations or no locations found."
        | some items =>
            if jsonTruthy items = false then
              "No locations found matching '" ++ name ++ "'."
            else
              String.intercalate "\n---\n"
                ((jsonItems items).map fun l => format_location (objFields l))

/-- `get_locations_by_state` (location_manager.py lines 106-123). -/
def get_locations_by_state (env : HttpEnv) (state : String) : String :=
  let url := LOCATION_API_BASE ++ "/search?state=" ++ state
  match make_location_request env url with
  | none => "Unable to fetch locations for state '" ++ state ++ "'."
  | some data =>
      if jsonTruthy data = false then
        "Unable to fetch locations for state '" ++ state ++ "'."
      else
        match lookupKey (objFields data) "items" with
        | none => "Unable to fetch locations for state '" ++ state ++ "'."
        | some items =>
            if jsonTruthy items = false then
              "No locations found in state '" ++ state ++ "'."
            else
              String.intercalate "\n---\n"
                ((jsonItems items).map fun l => format_location (objFields l))

end LocationManager

namespace Client

/-- The `tool_use_id` tags of the tool-result blocks of a message. -/
def resultIds (m : Message) : List String :=
  match m.content with
  | MsgContent.text _ => []
  | MsgContent.blocks bs =>
      bs.filterMap fun b =>
        match b with
        | MsgBlock.toolResult _ tid => some tid
        | _ => none

/-- The `id` tags of the tool-use blocks of a message. -/
def useIds (m : Message) : List String :=
  match m.content with
  | MsgContent.text _ => []
  | MsgContent.blocks bs =>
      bs.filterMap fun b =>
        match b with
        | MsgBlock.toolUse _ _ i => some i
        | _ => none

/-- Every tool-result block of `m` is carried in a user turn whose
immediate predecessor `p` is an assistant turn holding a tool-use block
with the same identifier. -/
def okAfter (p m : Message) : Bool :=
  (resultIds m).all fun tid =>
    m.role == "user" && p.role == "assistant" && (useIds p).contains tid

/-- `okAfter` holds along a message list, each message checked against its
predecessor. -/
def pairsOk : Message → List Message → Bool
  | _, [] => true
  | p, m :: rest => okAfter p m && pairsOk m rest

/-- The transcript invariant: no tool-result block appears in the first
message, and every later tool-result block sits in a user turn directly
after an assistant turn requesting the same tool-use id. -/
def chainOk : List Message → Bool
  | [] => true
  | m :: rest => (resultIds m).isEmpty && pairsOk m rest

/-- Concrete environment for the C4 scenario of the spec: reply 1 is a
single `tool_use` block for `get_location_by_id` on `QIM4`, the tool
returns the Chicago time zone, reply 2 is a single text block. -/
def envScenario : Env :=
  { hasSession := true,
    listToolsResult := Except.ok [],
    bedrock := fun n =>
      if n = 0 then
        BedrockOutcome.ok
          [ContentBlock.toolUse (some "t1") "get_location_by_id"
            [("location_id", Json.str "QIM4")]]
      else
        BedrockOutcome.ok
          [ContentBlock.text "QIM4 is in the America/Chicago time zone."],
    callTool := fun _ _ _ => Except.ok "Time Zone: America/Chicago",
    traceback := "tb" }

/-- Concrete environment realizing a chain of N = 2 sequential tool
requests: reply 1 and reply 2 each consist of a single `tool_use` block,
reply 3 is plain text, and every tool call succeeds. -/
def envChain2 : Env :=
  { hasSession := true,
    listToolsResult := Except.ok [],
    bedrock := fun n =>
      if n = 0 then
        BedrockOutcome.ok [ContentBlock.toolUse (some "t1") "toolA" []]
      else if n = 1 then
        BedrockOutcome.ok [ContentBlock.toolUse (some "t2") "toolB" []]
      else
        BedrockOutcome.ok [ContentBlock.text "done"],
    callTool := fun _ _ _ => Except.ok "result",
    traceback := "tb" }

/-- Concrete environment whose first (and only relevant) reply is two text
blocks `"a"` and `"b"`. -/
def envTwoTexts : Env :=
  { hasSession := true,
    listToolsResult := Except.ok [],
    bedrock := fun _ =>
      BedrockOutcome.ok [ContentBlock.text "a", ContentBlock.text "b"],
    callTool := fun _ _ _ => Except.ok "",
    traceback := "tb" }

/-- Concrete environment where the requested tool call raises. -/
def envToolFails : Env :=
  { hasSession := true,
    listToolsResult := Except.ok [],
    bedrock := fun _ =>
      BedrockOutcome.ok [ContentBlock.toolUse (some "t1") "toolA" []],
    callTool := fun _ _ _ => Except.error "boom",
    traceback := "tb" }

/-- Concrete environment for single-tool-call scenarios with surrounding
text: reply 1 is text "pre", one tool request, text "post"; reply 2 is
text "follow". -/
def envOneTool : Env :=
  { hasSession := true,
    listToolsResult := Except.ok [],
    bedrock := fun n =>
      if n = 0 then
        BedrockOutcome.ok
          [ContentBlock.text "pre",
           ContentBlock.toolUse (some "t1") "toolA" [],
           ContentBlock.text "post"]
      else BedrockOutcome.ok [ContentBlock.text "follow"],
    callTool := fun _ _ _ => Except.ok "result",
    traceback := "tb" }

/-- Concrete environment whose first reply holds two id-less tool
requests. -/
def envNoIds : Env :=
  { hasSession := true,
    listToolsResult := Except.ok [],
    bedrock := fun n =>
      if n = 0 then
        BedrockOutcome.ok
          [ContentBlock.toolUse none "toolA" [],
           ContentBlock.toolUse none "toolB" []]
      else BedrockOutcome.ok [ContentBlock.text "done"],
    callTool := fun _ _ _ => Except.ok "result",
    traceback := "tb" }

/-- Concrete environment used with a latched `bedrock_available = false`
flag; the session and catalog are healthy. -/
def envLatched : Env :=
  { hasSession := true,
    listToolsResult := Except.ok [],
    bedrock := fun _ => BedrockOutcome.ok [ContentBlock.text "never reached"],
    callTool := fun _ _ _ => Except.ok "never reached",
    traceback := "tb" }

/-- Concrete environment with no active session. -/
def envC5NoSession : Env :=
  { hasSession := false,
    listToolsResult := Except.ok [],
    bedrock := fun _ => BedrockOutcome.ok [],
    callTool := fun _ _ _ => Except.ok "",
    traceback := "tb" }

/-- Concrete environment where the tool-catalog fetch raises. -/
def envC5Catalog : Env :=
  { hasSession := true,
    listToolsResult := Except.error "catalog unreachable",
    bedrock := fun _ => BedrockOutcome.ok [],
    callTool := fun _ _ _ => Except.ok "",
    traceback := "tb" }

/-- Concrete environment with a healthy session and catalog, used with the
latched `bedrock_available = false` flag. -/
def envC5Healthy : Env :=
  { hasSession := true,
    listToolsResult := Except.ok [],
    bedrock := fun _ => BedrockOutcome.ok [],
    callTool := fun _ _ _ => Except.ok "",
    traceback := "tb" }

/-- Concrete environment whose Bedrock network request fails with a
`ClientError`. -/
def envC5Net : Env :=
  { hasSession := true,
    listToolsResult := Except.ok [],
    bedrock := fun _ =>
      BedrockOutcome.clientError "ThrottlingException" "too many requests",
    callTool := fun _ _ _ => Except.ok "",
    traceback := "tb" }

/-- Concrete environment whose requested tool invocation raises. -/
def envC5ToolFail : Env :=
  { hasSession := true,
    listToolsResult := Except.ok [],
    bedrock := fun _ =>
      BedrockOutcome.ok [ContentBlock.toolUse (some "t1") "toolA" []],
    callTool := fun _ _ _ => Except.error "tool exploded",
    traceback := "tb" }

/-- The loop state right after the tool catalog was fetched and the first
Bedrock call returned successfully with `bedrock_available = true`. -/
def startState (query : String) : LoopState :=
  { client :=
      { bedrock_available := true, nBedrock := 1, nTool := 0,
        events := [Event.listToolsCall, Event.modelInvoke, Event.bedrockNetwork] },
    messages := [{ role := "user", content := MsgContent.text query }],
    tool_results := [],
    final_text := [] }

end Client

namespace LocationManager

/-- Concrete HTTP world where every request times out. -/
def envTimeout : HttpEnv :=
  { get := fun _ => HttpResult.requestError "timeout" }

end LocationManager

namespace Client

/-- A reply consisting only of text blocks just extends `final_text`. -/
theorem processBlocks_texts (env : Env) (texts : List String) (st : LoopState) :
    processBlocks env (texts.map ContentBlock.text) st =
      ({ st with final_text := st.final_text ++ texts }, none) := by
  induction texts generalizing st with
  | nil => simp [processBlocks]
  | cons t ts ih =>
      simp [processBlocks, ih, List.append_assoc]

/-- Scanning a concatenation of block lists: the second list is scanned
from the state the first leaves behind, unless the first raised. -/
theorem processBlocks_append (env : Env) (xs ys : List ContentBlock) (st : LoopState) :
    processBlocks env (xs ++ ys) st =
      match processBlocks env xs st with
      | (st1, none) => processBlocks env ys st1
      | (st1, some e) => (st1, some e) := by
  induction xs generalizing st with
  | nil => simp [processBlocks]
  | cons b xs ih =>
      cases b with
      | text t => simp only [List.cons_append, processBlocks]; exact ih _
      | other => simp only [List.cons_append, processBlocks]; exact ih _
      | toolUse id name args =>
          simp only [List.cons_append, processBlocks]
          cases hct : env.callTool st.client.nTool name args with
          | error e => simp
          | ok r =>
              cases hinv : _invoke_bedrock_claude env
                  { st.client with
                    events := st.client.events ++ [Event.toolCall name],
                    nTool := st.client.nTool + 1 } with
              | mk res c2 =>
                  cases res with
                  | error e => simp
                  | ok content2 => simp [ih]

/-- The `tool_results` list of the source is initialized empty and never
appended to; the loop leaves it untouched. -/
theorem processBlocks_tool_results (env : Env) (blocks : List ContentBlock)
    (st : LoopState) :
    (processBlocks env blocks st).1.tool_results = st.tool_results := by
  induction blocks generalizing st with
  | nil => rfl
  | cons b rest ih =>
      cases b with
      | text t => exact ih _
      | other => exact ih _
      | toolUse id name args =>
          simp only [processBlocks]
          cases hct : env.callTool st.client.nTool name args with
          | error e => rfl
          | ok r =>
              cases hinv : _invoke_bedrock_claude env
                  { st.client with
                    events := st.client.events ++ [Event.toolCall name],
                    nTool := st.client.nTool + 1 } with
              | mk res c2 =>
                  cases res with
                  | error e => rfl
                  | ok content2 => exact ih _

end Client

namespace Client

/-- When a session exists, the tool catalog fetch succeeds and the first
Bedrock call returns `blocks`, `process_query` reduces to a scan of
`blocks` from `startState`. -/
theorem process_query_eq_of_ok (env : Env) (q : String) (tl : List MCPTool)
    (blocks : List ContentBlock)
    (hs : env.hasSession = true) (hlt : env.listToolsResult = Except.ok tl)
    (hb : env.bedrock 0 = BedrockOutcome.ok blocks) :
    process_query env true q =
      match processBlocks env blocks (startState q) with
      | (st, none) =>
          { output := String.intercalate "\n" st.final_text,
            events := st.client.events, messages := st.messages }
      | (st, some e) =>
          { output := errorOutput e env.traceback,
            events := st.client.events, messages := st.messages } := by
  simp [process_query, hs, hlt, _invoke_bedrock_claude, hb, startState]

/-- Appending a fresh request/result message pair preserves `pairsOk`. -/
theorem pairsOk_append_pair (xs : List Message) (p a u : Message)
    (h : pairsOk p xs = true) (ha : resultIds a = [])
    (hu : okAfter a u = true) :
    pairsOk p (xs ++ [a, u]) = true := by
  induction xs generalizing p with
  | nil =>
      simp [pairsOk, okAfter, ha]
      simpa [okAfter] using hu
  | cons m xs ih =>
      simp only [pairsOk, Bool.and_eq_true] at h
      simp only [List.cons_append, pairsOk, Bool.and_eq_true]
      exact ⟨h.1, ih _ h.2⟩

/-- Appending a fresh request/result message pair preserves the transcript
invariant. -/
theorem chainOk_append_pair (ms : List Message) (a u : Message)
    (h : chainOk ms = true) (ha : resultIds a = [])
    (hu : okAfter a u = true) :
    chainOk (ms ++ [a, u]) = true := by
  cases ms with
  | nil =>
      simp [chainOk, pairsOk, okAfter, ha]
      simpa [okAfter] using hu
  | cons m rest =>
      simp only [chainOk, Bool.and_eq_true] at h
      simp only [List.cons_append, chainOk, Bool.and_eq_true]
      exact ⟨h.1, pairsOk_append_pair _ _ _ _ h.2 ha hu⟩

/-- The scan of the reply blocks preserves the transcript invariant. -/
theorem processBlocks_chainOk (env : Env) (blocks : List ContentBlock)
    (st : LoopState) (h : chainOk st.messages = true) :
    chainOk (processBlocks env blocks st).1.messages = true := by
  induction blocks generalizing st with
  | nil => exact h
  | cons b rest ih =>
      cases b with
      | text t => exact ih _ h
      | other => exact ih _ h
      | toolUse id name args =>
          simp only [processBlocks]
          cases hct : env.callTool st.client.nTool name args with
          | error e => exact h
          | ok r =>
              cases hinv : _invoke_bedrock_claude env
                  { st.client with
                    events := st.client.events ++ [Event.toolCall name],
                    nTool := st.client.nTool + 1 } with
              | mk res c2 =>
                  have hpair : chainOk (st.messages ++
                      [{ role := "assistant",
                         content := MsgContent.blocks
                           [MsgBlock.toolUse name args
                             (fallbackToolId id st.tool_results)] },
                       { role := "user",
                         content := MsgContent.blocks
                           [MsgBlock.toolResult r
                             (fallbackToolId id st.tool_results)] }]) = true := by
                    apply chainOk_append_pair _ _ _ h
                    · rfl
                    · simp [okAfter, resultIds, useIds]
                  cases res with
                  | error e => exact hpair
                  | ok content2 => exact ih _ hpair

end Client

namespace Client

/-- C4: in the concrete scenario — query asks for the time zone of QIM4,
reply 1 is a single `tool_use` block (id "t1", tool `get_location_by_id`,
input `location_id = "QIM4"`), the tool returns
"Time Zone: America/Chicago", and reply 2 is the single text block
"QIM4 is in the America/Chicago time zone." — `process_query` returns
exactly the annotation line, a newline, and the final model text. -/
theorem C4_concrete_scenario :
    (process_query envScenario true
        "What is the time zone for location QIM4?").output =
      "[Calling tool get_location_by_id with args \x7b\"location_id\": \"QIM4\"\x7d]\nQIM4 is in the America/Chicago time zone." := by
  rfl

/-- C3 (amended): for every query whose model reply contains only text
blocks, `process_query` returns those text blocks joined by newline
separators ("\n".join), in order, making exactly one Model Invoker call
and zero `callTool` calls. -/
theorem C3_text_only_newline_join (env : Env) (q : String) (tl : List MCPTool)
    (texts : List String)
    (hs : env.hasSession = true) (hlt : env.listToolsResult = Except.ok tl)
    (hb : env.bedrock 0 = BedrockOutcome.ok (texts.map ContentBlock.text)) :
    (process_query env true q).output = String.intercalate "\n" texts ∧
    countModelCalls (process_query env true q).events = 1 ∧
    countToolCalls (process_query env true q).events = 0 := by
  rw [process_query_eq_of_ok env q tl _ hs hlt hb, processBlocks_texts]
  simp [startState, countModelCalls, countToolCalls]

/-- Witness for C3: the text-only reply `["a", "b"]` yields output
`"a\nb"` with one model call and no tool calls. -/
theorem C3_text_only_newline_join_witness :
    (process_query envTwoTexts true "q").output = String.intercalate "\n" ["a", "b"] ∧
    countModelCalls (process_query envTwoTexts true "q").events = 1 ∧
    countToolCalls (process_query envTwoTexts true "q").events = 0 :=
  C3_text_only_newline_join envTwoTexts "q" [] ["a", "b"] rfl rfl rfl

/-- C3 counterexample: with reply blocks `"a"` and `"b"` the returned
string is the newline join `"a\nb"`, not the plain concatenation `"ab"`
the claim describes. -/
theorem C3_counterexample :
    (process_query envTwoTexts true "q").output = "a\nb" ∧
    (process_query envTwoTexts true "q").output ≠ "ab" := by
  constructor
  · rfl
  · decide

end Client

namespace Client

/-- C1 counterexample: `envChain2` realizes a chain of N = 2 sequential
tool-invocation requests (each alone in its reply), but `process_query`
makes 2 Model Invoker calls and 1 `callTool` call, not the N + 1 = 3 and
N = 2 the claim states; the request in the follow-up reply is never
executed, and the run terminates although the last reply scanned still
contains a tool-invocation-request block. -/
theorem C1_counterexample :
    countModelCalls (process_query envChain2 true "q").events = 2 ∧
    countToolCalls (process_query envChain2 true "q").events = 1 ∧
    ¬(countModelCalls (process_query envChain2 true "q").events = 2 + 1 ∧
      countToolCalls (process_query envChain2 true "q").events = 2) := by
  decide

/-- C1 (amended): when the first model reply is a single
tool-invocation-request block, the tool call succeeds and the follow-up
Bedrock call returns — whatever the follow-up reply contains, including
further tool-invocation requests of an arbitrarily long chain —
`process_query` makes exactly two Model Invoker calls and exactly one
`callTool` call: the scan is a single flat pass over the first reply, so a
chain of N ≥ 1 requests yields 2 and 1, not N + 1 and N. -/
theorem C1_chain_two_calls (env : Env) (q : String) (tl : List MCPTool)
    (id : Option String) (name : String) (args : List (String × Json))
    (r : String) (c2 : List ContentBlock)
    (hs : env.hasSession = true) (hlt : env.listToolsResult = Except.ok tl)
    (hb0 : env.bedrock 0 = BedrockOutcome.ok [ContentBlock.toolUse id name args])
    (hct : env.callTool 0 name args = Except.ok r)
    (hb1 : env.bedrock 1 = BedrockOutcome.ok c2) :
    countModelCalls (process_query env true q).events = 2 ∧
    countToolCalls (process_query env true q).events = 1 := by
  rw [process_query_eq_of_ok env q tl _ hs hlt hb0]
  simp [processBlocks, startState, hct, _invoke_bedrock_claude, hb1,
    countModelCalls, countToolCalls]

/-- Witness for C1 (amended): on the two-step chain environment the run
makes two Model Invoker calls and one tool call. -/
theorem C1_chain_two_calls_witness :
    countModelCalls (process_query envChain2 true "q").events = 2 ∧
    countToolCalls (process_query envChain2 true "q").events = 1 :=
  C1_chain_two_calls envChain2 "q" [] (some "t1") "toolA" [] "result"
    [ContentBlock.toolUse (some "t2") "toolB" []] rfl rfl rfl rfl rfl

/-- C2: for every query whose first model reply contains exactly one
tool-invocation-request block, possibly preceded or followed by text
blocks, with the tool call and follow-up Bedrock call succeeding,
`process_query` makes exactly two Model Invoker calls and one `callTool`
call, and the output is the newline join of: the pre-tool texts, then the
tool-call annotation, then the follow-up reply's texts, then the
post-tool texts — pre-tool text before follow-up text, in order. -/
theorem C2_one_tool (env : Env) (q : String) (tl : List MCPTool)
    (pre : List String) (id : Option String) (name : String)
    (args : List (String × Json)) (r : String) (c2 : List ContentBlock)
    (post : List String)
    (hs : env.hasSession = true) (hlt : env.listToolsResult = Except.ok tl)
    (hb0 : env.bedrock 0 =
      BedrockOutcome.ok (pre.map ContentBlock.text ++
        ContentBlock.toolUse id name args :: post.map ContentBlock.text))
    (hct : env.callTool 0 name args = Except.ok r)
    (hb1 : env.bedrock 1 = BedrockOutcome.ok c2) :
    (process_query env true q).output =
      String.intercalate "\n" (pre ++
        ("[Calling tool " ++ name ++ " with args " ++
          dumps (Json.obj args) ++ "]") :: (followUpTexts c2 ++ post)) ∧
    countModelCalls (process_query env true q).events = 2 ∧
    countToolCalls (process_query env true q).events = 1 := by
  rw [process_query_eq_of_ok env q tl _ hs hlt hb0, processBlocks_append,
    processBlocks_texts]
  simp [processBlocks, startState, hct, _invoke_bedrock_claude, hb1,
    processBlocks_texts, countModelCalls, countToolCalls, List.append_assoc]

/-- Witness for C2: reply 1 = text "pre", one tool request, text "post";
follow-up reply = text "follow"; the output interleaves them in order
with two model calls and one tool call. -/
theorem C2_one_tool_witness :
    (process_query envOneTool true "q").output =
      String.intercalate "\n" (["pre"] ++
        ("[Calling tool toolA with args " ++
          dumps (Json.obj []) ++ "]") ::
        (followUpTexts [ContentBlock.text "follow"] ++ ["post"])) ∧
    countModelCalls (process_query envOneTool true "q").events = 2 ∧
    countToolCalls (process_query envOneTool true "q").events = 1 :=
  C2_one_tool envOneTool "q" [] ["pre"] (some "t1") "toolA" [] "result"
    [ContentBlock.text "follow"] ["post"] rfl rfl rfl rfl rfl

end Client

namespace Client

/-- C5: `process_query` never propagates a failure to its caller (it is a
total function into plain strings): with no session it returns the fixed
no-session message, and each raising collaborator — the tool-catalog
fetch, the Model Invoker in its latched unavailable state, a Bedrock
`ClientError`, and a failing tool invocation — is caught at the query
boundary and surfaced as the error-annotated string
`"Error processing query: ..."` embedding the exception message. -/
theorem C5_always_returns_string (env : Env) (available : Bool) (q : String) :
    (env.hasSession = false →
      (process_query env available q).output =
        "Not connected to server. Please connect first.") ∧
    (∀ e, env.hasSession = true → env.listToolsResult = Except.error e →
      (process_query env available q).output = errorOutput e env.traceback) ∧
    (∀ tl, env.hasSession = true → env.listToolsResult = Except.ok tl →
      available = false →
      (process_query env available q).output =
        errorOutput
          "AWS Bedrock authentication failed. Please check your credentials."
          env.traceback) ∧
    (∀ tl code msg, env.hasSession = true → env.listToolsResult = Except.ok tl →
      available = true → env.bedrock 0 = BedrockOutcome.clientError code msg →
      (process_query env available q).output =
        errorOutput ("AWS Bedrock error (" ++ code ++ "): " ++ msg)
          env.traceback) ∧
    (∀ (tl : List MCPTool) (pre : List String) (id : Option String)
        (name : String) (args : List (String × Json))
        (rest : List ContentBlock) (e : String),
      env.hasSession = true → env.listToolsResult = Except.ok tl →
      available = true →
      env.bedrock 0 = BedrockOutcome.ok
        (pre.map ContentBlock.text ++ ContentBlock.toolUse id name args :: rest) →
      env.callTool 0 name args = Except.error e →
      (process_query env available q).output = errorOutput e env.traceback) := by
  refine ⟨?_, ?_, ?_, ?_, ?_⟩
  · intro h
    simp [process_query, h]
  · intro e hs he
    simp [process_query, hs, he]
  · intro tl hs hlt hav
    subst hav
    simp [process_query, hs, hlt, _invoke_bedrock_claude, errorOutput]
  · intro tl code msg hs hlt hav hb
    subst hav
    simp [process_query, hs, hlt, _invoke_bedrock_claude, hb, errorOutput]
  · intro tl pre id name args rest e hs hlt hav hb hct
    subst hav
    rw [process_query_eq_of_ok env q tl _ hs hlt hb, processBlocks_append,
      processBlocks_texts]
    simp [processBlocks, startState, hct, errorOutput]

/-- Witness for C5: each of the five failure modes exercised at a concrete
input — no session, failing catalog fetch, latched flag, Bedrock
`ClientError`, and a failing tool call. -/
theorem C5_always_returns_string_witness :
    (process_query envC5NoSession true "q").output =
      "Not connected to server. Please connect first." ∧
    (process_query envC5Catalog true "q").output =
      errorOutput "catalog unreachable" envC5Catalog.traceback ∧
    (process_query envC5Healthy false "q").output =
      errorOutput
        "AWS Bedrock authentication failed. Please check your credentials."
        envC5Healthy.traceback ∧
    (process_query envC5Net true "q").output =
      errorOutput ("AWS Bedrock error (" ++ "ThrottlingException" ++ "): " ++
        "too many requests") envC5Net.traceback ∧
    (process_query envC5ToolFail true "q").output =
      errorOutput "tool exploded" envC5ToolFail.traceback :=
  ⟨(C5_always_returns_string envC5NoSession true "q").1 rfl,
   (C5_always_returns_string envC5Catalog true "q").2.1 "catalog unreachable"
     rfl rfl,
   (C5_always_returns_string envC5Healthy false "q").2.2.1 [] rfl rfl rfl,
   (C5_always_returns_string envC5Net true "q").2.2.2.1 [] "ThrottlingException"
     "too many requests" rfl rfl rfl rfl,
   (C5_always_returns_string envC5ToolFail true "q").2.2.2.2 [] [] (some "t1")
     "toolA" [] [] "tool exploded" rfl rfl rfl rfl rfl⟩

/-- C6: when the Session Connector's `callTool` raises for the requested
tool, the query terminates at once with an error string containing the
exception's message, and the event log ends at that tool call — no
further Model Invoker call occurs. -/
theorem C6_tool_failure_stops (env : Env) (q : String) (tl : List MCPTool)
    (pre : List String) (id : Option String) (name : String)
    (args : List (String × Json)) (rest : List ContentBlock) (e : String)
    (hs : env.hasSession = true) (hlt : env.listToolsResult = Except.ok tl)
    (hb0 : env.bedrock 0 = BedrockOutcome.ok
      (pre.map ContentBlock.text ++ ContentBlock.toolUse id name args :: rest))
    (hct : env.callTool 0 name args = Except.error e) :
    (process_query env true q).output =
      "Error processing query: " ++ e ++ "\n\n" ++ env.traceback ∧
    (process_query env true q).events =
      [Event.listToolsCall, Event.modelInvoke, Event.bedrockNetwork,
       Event.toolCall name] := by
  rw [process_query_eq_of_ok env q tl _ hs hlt hb0, processBlocks_append,
    processBlocks_texts]
  simp [processBlocks, startState, hct, errorOutput]

/-- Witness for C6: a failing tool call (`"boom"`) surfaces in the error
string and the run stops right after the tool call. -/
theorem C6_tool_failure_stops_witness :
    (process_query envToolFails true "q").output =
      "Error processing query: " ++ "boom" ++ "\n\n" ++ envToolFails.traceback ∧
    (process_query envToolFails true "q").events =
      [Event.listToolsCall, Event.modelInvoke, Event.bedrockNetwork,
       Event.toolCall "toolA"] :=
  C6_tool_failure_stops envToolFails "q" [] [] (some "t1") "toolA" [] [] "boom"
    rfl rfl rfl rfl

/-- C7: with the availability flag latched to false, every query yields
the explanatory authentication-failure error string; the event log shows
the Model Invoker entry but no Bedrock network request is attempted. -/
theorem C7_latched_fails_fast (env : Env) (q : String) (tl : List MCPTool)
    (hs : env.hasSession = true) (hlt : env.listToolsResult = Except.ok tl) :
    (process_query env false q).output =
      errorOutput "AWS Bedrock authentication failed. Please check your credentials."
        env.traceback ∧
    (process_query env false q).events = [Event.listToolsCall, Event.modelInvoke] ∧
    countBedrockNetwork (process_query env false q).events = 0 := by
  simp [process_query, hs, hlt, _invoke_bedrock_claude, countBedrockNetwork]

/-- Witness for C7: on a healthy session with the flag latched, the query
fails fast without any Bedrock network request. -/
theorem C7_latched_fails_fast_witness :
    (process_query envLatched false "q").output =
      errorOutput "AWS Bedrock authentication failed. Please check your credentials."
        envLatched.traceback ∧
    (process_query envLatched false "q").events =
      [Event.listToolsCall, Event.modelInvoke] ∧
    countBedrockNetwork (process_query envLatched false "q").events = 0 :=
  C7_latched_fails_fast envLatched "q" [] rfl rfl

end Client

namespace Client

/-- C8: the transcript invariant holds for the final message list of every
run: whenever a tool-result block was appended, it sits in a user turn
immediately following an assistant turn containing a tool-use block, and
the result's `tool_use_id` equals that request's `id`. -/
theorem C8_transcript_invariant (env : Env) (available : Bool) (q : String) :
    chainOk (process_query env available q).messages = true := by
  unfold process_query
  split
  · rfl
  · dsimp only
    split
    · rfl
    · split
      · rfl
      · next content c1 heq =>
          split
          · next st heq2 =>
              have h := processBlocks_chainOk env content
                { client := c1,
                  messages := [{ role := "user", content := MsgContent.text q }],
                  tool_results := [], final_text := [] } rfl
              rw [heq2] at h
              exact h
          · next st e heq2 =>
              have h := processBlocks_chainOk env content
                { client := c1,
                  messages := [{ role := "user", content := MsgContent.text q }],
                  tool_results := [], final_text := [] } rfl
              rw [heq2] at h
              exact h

/-- C9: the `tool_results` list is never appended to, so the fallback
identifier `f"tool_{len(tool_results)}"` always evaluates to `"tool_0"`:
in a reply with two id-less tool-use blocks, both transcript pairs carry
the identifier "tool_0". -/
theorem C9_fallback_id (env : Env) (q : String) (tl : List MCPTool)
    (name1 : String) (args1 : List (String × Json))
    (name2 : String) (args2 : List (String × Json))
    (r1 r2 : String) (c2 c3 : List ContentBlock)
    (hs : env.hasSession = true) (hlt : env.listToolsResult = Except.ok tl)
    (hb0 : env.bedrock 0 = BedrockOutcome.ok
      [ContentBlock.toolUse none name1 args1,
       ContentBlock.toolUse none name2 args2])
    (hc0 : env.callTool 0 name1 args1 = Except.ok r1)
    (hb1 : env.bedrock 1 = BedrockOutcome.ok c2)
    (hc1 : env.callTool 1 name2 args2 = Except.ok r2)
    (hb2 : env.bedrock 2 = BedrockOutcome.ok c3) :
    (process_query env true q).messages =
      [{ role := "user", content := MsgContent.text q },
       { role := "assistant",
         content := MsgContent.blocks [MsgBlock.toolUse name1 args1 "tool_0"] },
       { role := "user",
         content := MsgContent.blocks [MsgBlock.toolResult r1 "tool_0"] },
       { role := "assistant",
         content := MsgContent.blocks [MsgBlock.toolUse name2 args2 "tool_0"] },
       { role := "user",
         content := MsgContent.blocks [MsgBlock.toolResult r2 "tool_0"] }] ∧
    (∀ (env' : Env) (blocks : List ContentBlock) (st : LoopState),
      (processBlocks env' blocks st).1.tool_results = st.tool_results) := by
  refine ⟨?_, fun env' blocks st => processBlocks_tool_results env' blocks st⟩
  rw [process_query_eq_of_ok env q tl _ hs hlt hb0]
  simp [processBlocks, startState, hc0, hc1, _invoke_bedrock_claude, hb1, hb2,
    fallbackToolId]
  rfl

/-- Witness for C9: both id-less tool requests of `envNoIds` are recorded
with the identifier "tool_0". -/
theorem C9_fallback_id_witness :
    (process_query envNoIds true "q").messages =
      [{ role := "user", content := MsgContent.text "q" },
       { role := "assistant",
         content := MsgContent.blocks [MsgBlock.toolUse "toolA" [] "tool_0"] },
       { role := "user",
         content := MsgContent.blocks [MsgBlock.toolResult "result" "tool_0"] },
       { role := "assistant",
         content := MsgContent.blocks [MsgBlock.toolUse "toolB" [] "tool_0"] },
       { role := "user",
         content := MsgContent.blocks [MsgBlock.toolResult "result" "tool_0"] }] ∧
    (∀ (env' : Env) (blocks : List ContentBlock) (st : LoopState),
      (processBlocks env' blocks st).1.tool_results = st.tool_results) :=
  C9_fallback_id envNoIds "q" [] "toolA" [] "toolB" [] "result" "result"
    [ContentBlock.text "done"] [ContentBlock.text "done"]
    rfl rfl rfl rfl rfl rfl rfl

end Client

namespace LocationManager

open Client (Json)

/-- C10: `make_location_request` never raises — for every URL it returns
`none` on a raised request (connection failure or timeout), on a non-2xx
status, and on a JSON decode failure, and the decoded payload otherwise —
and each tool converts a `none` result into its human-readable
"Unable to fetch" message string instead of an exception. -/
theorem C10_request_never_raises :
    (∀ (env : HttpEnv) (url m : String),
      env.get url = HttpResult.requestError m →
      make_location_request env url = none) ∧
    (∀ (env : HttpEnv) (url : String) (s : Nat) (b : Option Json),
      env.get url = HttpResult.response s b → ¬(200 ≤ s ∧ s < 300) →
      make_location_request env url = none) ∧
    (∀ (env : HttpEnv) (url : String) (s : Nat),
      env.get url = HttpResult.response s none →
      make_location_request env url = none) ∧
    (∀ (env : HttpEnv) (url : String) (s : Nat) (j : Json),
      env.get url = HttpResult.response s (some j) → 200 ≤ s → s < 300 →
      make_location_request env url = some j) ∧
    (∀ (env : HttpEnv) (state : String),
      make_location_request env
        (LOCATION_API_BASE ++ "/search?state=" ++ state) = none →
      get_locations_by_state env state =
        "Unable to fetch locations for state '" ++ state ++ "'.") ∧
    (∀ (env : HttpEnv) (name : String),
      make_location_request env
        (LOCATION_API_BASE ++ "/search?name=" ++ name) = none →
      search_locations_by_name env name =
        "Unable to fetch locations or no locations found.") ∧
    (∀ (env : HttpEnv) (location_id : String),
      make_location_request env
        (LOCATION_API_BASE ++ "/id/" ++ location_id) = none →
      get_location_by_id env location_id =
        Except.ok "Unable to fetch location data for this ID.") := by
  refine ⟨?_, ?_, ?_, ?_, ?_, ?_, ?_⟩
  · intro env url m h
    simp [make_location_request, h]
  · intro env url s b h hns
    simp only [make_location_request, h]
    rw [if_neg hns]
  · intro env url s h
    simp [make_location_request, h]
  · intro env url s j h h1 h2
    simp only [make_location_request, h]
    rw [if_pos ⟨h1, h2⟩]
  · intro env state h
    simp only [get_locations_by_state, h]
  · intro env name h
    simp only [search_locations_by_name, h]
  · intro env lid h
    simp only [get_location_by_id, h]

/-- Witness for C10: in a world where every request times out, the fetch
returns `none` and each of the three tools returns its message string. -/
theorem C10_request_never_raises_witness :
    make_location_request envTimeout "u" = none ∧
    get_locations_by_state envTimeout "CA" =
      "Unable to fetch locations for state '" ++ "CA" ++ "'." ∧
    search_locations_by_name envTimeout "Manheim" =
      "Unable to fetch locations or no locations found." ∧
    get_location_by_id envTimeout "QIM4" =
      Except.ok "Unable to fetch location data for this ID." :=
  ⟨C10_request_never_raises.1 envTimeout "u" "timeout" rfl,
   C10_request_never_raises.2.2.2.2.1 envTimeout "CA" rfl,
   C10_request_never_raises.2.2.2.2.2.1 envTimeout "Manheim" rfl,
   C10_request_never_raises.2.2.2.2.2.2 envTimeout "QIM4" rfl⟩

end LocationManager
